import Mathlib

/-!
# Verification of the F1 time-value normalization pipeline

Shallow embedding of the duration encoders of `src/extract/f1_dataExtractor.py`
and the decoder / column router of `src/transform/f1_dataTransform.py`.

Python strings are modelled as `List Char`; finite Python floats are
modelled as exact rationals (`ℚ`), which agrees with IEEE-754 double
arithmetic at every input used in a concrete theorem below (the relevant
products are exactly representable); infinite floats are a separate
constructor, and the overflow of `seconds * 1000` to infinity — whereupon
`round` raises `OverflowError`, caught by the encoders' `except` — is
modelled exactly by the threshold `2^1024 - 2^970` at which
round-to-nearest overflows.  Python's builtin `round` (banker's rounding,
half to even) is modelled by `pyRound`.  `pandas` missing values
(`NaN` / `NaT`) are modelled by `Option.none`.
-/

/-- Python strings, modelled as lists of characters. -/
abbrev PyStr := List Char

/-- A Python value reaching one of the duration encoders: a finite number
(`pd.isna` false; finite doubles are exact rationals), an infinite float
(`pd.isna` false, `isinstance(…, float)` true), a missing value (`NaN` /
`None` / `NaT`, `pd.isna` true), or a non-numeric value whose `str()` form
is `s`. -/
inductive PyVal where
  | vNum (q : ℚ)
  | vInf (isNeg : Bool)
  | vNaN
  | vStr (s : PyStr)
deriving DecidableEq

/-- The exact magnitude at which a product of doubles rounds to IEEE-754
infinity under round-to-nearest-even: `2^1024 - 2^970`, the midpoint
between the largest finite double `2^1024 - 2^971` (odd mantissa) and
`2^1024`.  When `abs(seconds_val) * 1000` reaches it the product is `inf`,
and `round(inf)` raises `OverflowError`. -/
def floatOverflowThreshold : ℚ := 2 ^ 1024 - 2 ^ 970

/-- Python's builtin `round` on an exact value: round half to even. -/
def pyRound (q : ℚ) : ℤ :=
  if q - q.floor < 1/2 then q.floor
  else if (1:ℚ)/2 < q - q.floor then q.floor + 1
  else if q.floor % 2 = 0 then q.floor else q.floor + 1

/-- Python's builtin `abs` on a number. -/
def pyAbs (q : ℚ) : ℚ := if q < 0 then -q else q

/-- The decimal digit character for `d % 10` (`'0'`–`'9'`). -/
def digitChar (d : ℕ) : Char := Char.ofNat (48 + d % 10)

/-- Python `f"{n:02d}"` for a nonnegative integer: zero-pad to width two. -/
def fmt02 (n : ℕ) : PyStr :=
  if n ≤ 99 then [digitChar (n / 10), digitChar (n % 10)] else Nat.toDigits 10 n

/-- Python `f"{n:03d}"` for a nonnegative integer: zero-pad to width three. -/
def fmt03 (n : ℕ) : PyStr :=
  if n ≤ 999 then [digitChar (n / 100), digitChar (n / 10 % 10), digitChar (n % 10)]
  else Nat.toDigits 10 n

/-- The f-string `f"{sign}{minutes:02d}:{seconds:02d}:{milliseconds:03d}"`. -/
def renderMMSSMS (neg : Bool) (m s ms : ℕ) : PyStr :=
  (if neg then ['-'] else []) ++ (fmt02 m ++ (':' :: (fmt02 s ++ (':' :: fmt03 ms))))

/-- The f-string `f"{sign}{hours:02d}:{minutes:02d}:{seconds:02d}"`. -/
def renderHHMMSS (neg : Bool) (h m s : ℕ) : PyStr :=
  (if neg then ['-'] else []) ++ (fmt02 h ++ (':' :: (fmt02 m ++ (':' :: fmt02 s))))

/-- The f-string `f"{sign}{hours:02d}:{minutes:02d}:{seconds:02d}:{milliseconds:03d}"`. -/
def renderHHMMSSMS (neg : Bool) (h m s ms : ℕ) : PyStr :=
  (if neg then ['-'] else []) ++
    (fmt02 h ++ (':' :: (fmt02 m ++ (':' :: (fmt02 s ++ (':' :: fmt03 ms))))))

/-- Encoder `format_seconds_to_mmssms` (f1_dataExtractor.py, lines 57–87): NaN input
returns NaN; a non-numeric input is returned as its `str()` form; a numeric
input is sign-split, converted to integer milliseconds with Python `round`,
and decomposed with integer `//` and `%`.  The `except` at lines 85–87
returns NaN when `round` raises `OverflowError`, which happens exactly when
`abs(seconds_val) * 1000` overflows to `inf` — on an infinite input, or on
a finite one at or beyond `floatOverflowThreshold`. -/
def format_seconds_to_mmssms (v : PyVal) : Option PyStr :=
  match v with
  | .vNaN => none
  | .vStr s => some s
  | .vInf _ => none
  | .vNum q =>
    if floatOverflowThreshold ≤ pyAbs q * 1000 then none
    else
      let tm : ℕ := (pyRound (pyAbs q * 1000)).toNat
      some (renderMMSSMS (decide (q < 0)) (tm / 60000) (tm % 60000 / 1000) (tm % 60000 % 1000))

/-- Encoder `format_seconds_to_hhmmss` (f1_dataExtractor.py, lines 90–119): rounds
to integer *seconds* (no multiplication) and decomposes with integer `//`
and `%`.  Here the `except` at lines 117–119 fires only for an infinite
input: `round` of a finite double never raises. -/
def format_seconds_to_hhmmss (v : PyVal) : Option PyStr :=
  match v with
  | .vNaN => none
  | .vStr s => some s
  | .vInf _ => none
  | .vNum q =>
    let ts : ℕ := (pyRound (pyAbs q)).toNat
    some (renderHHMMSS (decide (q < 0)) (ts / 3600) (ts % 3600 / 60) (ts % 3600 % 60))

/-- Encoder `format_seconds_to_hhmmssms` (f1_dataExtractor.py, lines 122–153), with
the same overflow-to-NaN `except` path (lines 151–153) as the MMSSMS
encoder. -/
def format_seconds_to_hhmmssms (v : PyVal) : Option PyStr :=
  match v with
  | .vNaN => none
  | .vStr s => some s
  | .vInf _ => none
  | .vNum q =>
    if floatOverflowThreshold ≤ pyAbs q * 1000 then none
    else
      let tm : ℕ := (pyRound (pyAbs q * 1000)).toNat
      some (renderHHMMSSMS (decide (q < 0)) (tm / 3600000) (tm % 3600000 / 60000)
        (tm % 3600000 % 60000 / 1000) (tm % 3600000 % 60000 % 1000))

/-! ## Decoder (`parse_custom_format_to_timedelta`)

The three `re.fullmatch` patterns of f1_dataTransform.py lines 27, 40 and 53
are modelled by explicit matchers: an optional leading `-`, fixed-width digit
groups, and literal `:` separators, with the whole string consumed.
A successful match is converted with `pd.to_timedelta`, modelled as the
signed sum of the components in integer milliseconds. -/

/-- One `\d` of a regex: consume a single decimal digit. -/
def readDigit (cs : PyStr) : Option (ℕ × PyStr) :=
  match cs with
  | [] => none
  | c :: rest => if c.isDigit then some (c.toNat - 48, rest) else none

/-- Model of `\d{2}` of a regex: consume exactly two digits, most significant first. -/
def read2 (cs : PyStr) : Option (ℕ × PyStr) :=
  (readDigit cs).bind fun p => (readDigit p.2).map fun q => (10 * p.1 + q.1, q.2)

/-- Model of `\d{3}` of a regex: consume exactly three digits. -/
def read3 (cs : PyStr) : Option (ℕ × PyStr) :=
  (readDigit cs).bind fun p => (read2 p.2).map fun q => (100 * p.1 + q.1, q.2)

/-- Model of `(-?)` at the start of the regexes: an optional leading minus sign. -/
def readSign (cs : PyStr) : Bool × PyStr :=
  match cs with
  | [] => (false, [])
  | c :: rest => if c = '-' then (true, rest) else (false, c :: rest)

/-- A literal `:` of the regexes. -/
def expectColon (cs : PyStr) : Option PyStr :=
  match cs with
  | [] => none
  | c :: rest => if c = ':' then some rest else none

/-- Model of `re.fullmatch(r"(-?)(\d{2}):(\d{2}):(\d{2}):(\d{3})", s)`. -/
def matchHHMMSSMS (cs0 : PyStr) : Option (Bool × ℕ × ℕ × ℕ × ℕ) :=
  (read2 (readSign cs0).2).bind fun p1 =>
  (expectColon p1.2).bind fun r1 =>
  (read2 r1).bind fun p2 =>
  (expectColon p2.2).bind fun r2 =>
  (read2 r2).bind fun p3 =>
  (expectColon p3.2).bind fun r3 =>
  (read3 r3).bind fun p4 =>
  if p4.2 = [] then some ((readSign cs0).1, p1.1, p2.1, p3.1, p4.1) else none

/-- Model of `re.fullmatch(r"(-?)(\d{2}):(\d{2}):(\d{3})", s)`. -/
def matchMMSSMS (cs0 : PyStr) : Option (Bool × ℕ × ℕ × ℕ) :=
  (read2 (readSign cs0).2).bind fun p1 =>
  (expectColon p1.2).bind fun r1 =>
  (read2 r1).bind fun p2 =>
  (expectColon p2.2).bind fun r2 =>
  (read3 r2).bind fun p3 =>
  if p3.2 = [] then some ((readSign cs0).1, p1.1, p2.1, p3.1) else none

/-- Model of `re.fullmatch(r"(-?)(\d{2}):(\d{2}):(\d{2})", s)`. -/
def matchHHMMSS (cs0 : PyStr) : Option (Bool × ℕ × ℕ × ℕ) :=
  (read2 (readSign cs0).2).bind fun p1 =>
  (expectColon p1.2).bind fun r1 =>
  (read2 r1).bind fun p2 =>
  (expectColon p2.2).bind fun r2 =>
  (read2 r2).bind fun p3 =>
  if p3.2 = [] then some ((readSign cs0).1, p1.1, p2.1, p3.1) else none

/-- Python `str.strip()` whitespace test (ASCII whitespace). -/
def pyIsSpace (c : Char) : Bool :=
  c = ' ' ∨ c = '\t' ∨ c = '\n' ∨ c = '\r' ∨ c = '\x0b' ∨ c = '\x0c'

/-- Python `str.strip()`: drop leading and trailing whitespace. -/
def pyStrip (cs : PyStr) : PyStr :=
  ((cs.dropWhile pyIsSpace).reverse.dropWhile pyIsSpace).reverse

/-- Python `str.lower()` on one ASCII character. -/
def pyLowerChar (c : Char) : Char :=
  if 'A' ≤ c ∧ c ≤ 'Z' then Char.ofNat (c.toNat + 32) else c

/-- Python `str.lower()`. -/
def pyLower (cs : PyStr) : PyStr := cs.map pyLowerChar

/-- Signed milliseconds of a matched group tuple (the value of the
`pd.to_timedelta` call on the rebuilt `HH:MM:SS.mmm` string). -/
def tdVal (neg : Bool) (n : ℕ) : ℤ := if neg then -(n : ℤ) else (n : ℤ)

/-- Decoder `parse_custom_format_to_timedelta` (f1_dataTransform.py, lines 11–64).
The result is the parsed `pandas.Timedelta` in integer milliseconds, `none`
standing for `NaT`. -/
def parse_custom_format_to_timedelta (time_val : Option PyStr) : Option ℤ :=
  match time_val with
  | none => none
  | some raw =>
    if raw = [] then none
    else if pyLower (pyStrip raw) = ['n', 'a', 'n'] ∨ pyLower (pyStrip raw) = ['n', 'a', 't'] then
      none
    else
      match matchHHMMSSMS (pyStrip raw) with
      | some (neg, h, m, s, ms) => some (tdVal neg (h * 3600000 + m * 60000 + s * 1000 + ms))
      | none =>
        match matchMMSSMS (pyStrip raw) with
        | some (neg, m, s, ms) => some (tdVal neg (m * 60000 + s * 1000 + ms))
        | none =>
          match matchHHMMSS (pyStrip raw) with
          | some (neg, h, m, s) => some (tdVal neg ((h * 3600 + m * 60 + s) * 1000))
          | none => none

example : parse_custom_format_to_timedelta (some "01:29:567".data) = some 89567 := by decide
example : parse_custom_format_to_timedelta (some "-00:05:250".data) = some (-5250) := by decide
example : parse_custom_format_to_timedelta (some "01:01:30:123".data) = some 3690123 := by decide
example : parse_custom_format_to_timedelta (some "01:02:03".data) = some 3723000 := by decide
example : parse_custom_format_to_timedelta (some "01:02:003".data) = some 62003 := by decide
example : parse_custom_format_to_timedelta (some "1:02:03:456".data) = none := by decide
example : parse_custom_format_to_timedelta (some "  nAn ".data) = none := by decide
example : parse_custom_format_to_timedelta (some "   ".data) = none := by decide
example : parse_custom_format_to_timedelta (some [])  = none := by decide
example : parse_custom_format_to_timedelta none = none := by decide

/-! ## Arithmetic facts about the rounding model -/

lemma ratFloor_eq (q : ℚ) : q.floor = ⌊q⌋ := (Rat.floor_def' q).trans Rat.floor_def.symm

lemma pyRound_intCast (n : ℤ) : pyRound ((n : ℚ)) = n := by
  have hf : ((n : ℚ)).floor = n := by rw [ratFloor_eq]; exact Int.floor_intCast n
  unfold pyRound
  rw [hf, sub_self]
  rw [if_pos (by norm_num)]

lemma pyRound_add_half (n : ℤ) : pyRound ((n : ℚ) + 1/2) = if 2 ∣ n then n else n + 1 := by
  have hf : ((n : ℚ) + 1/2).floor = n := by
    rw [ratFloor_eq, add_comm, Int.floor_add_int]
    norm_num
  have h2 : (n : ℚ) + 1/2 - ((n : ℤ) : ℚ) = 1/2 := by ring
  unfold pyRound
  rw [hf, h2, if_neg (by norm_num), if_neg (by norm_num)]
  by_cases hd : 2 ∣ n
  · rw [if_pos (by omega : n % 2 = 0), if_pos hd]
  · rw [if_neg (by omega : ¬n % 2 = 0), if_neg hd]

lemma pyAbs_eq_abs (q : ℚ) : pyAbs q = |q| := by
  unfold pyAbs
  by_cases h : q < 0
  · rw [if_pos h, abs_of_neg h]
  · rw [if_neg h, abs_of_nonneg (not_lt.mp h)]

/-! ## Character-level facts -/

lemma digitChar_isDigit (d : ℕ) : (digitChar d).isDigit = true := by
  have h : ∀ e < 10, (Char.ofNat (48 + e)).isDigit = true := by decide
  exact h (d % 10) (Nat.mod_lt _ (by norm_num))

lemma digitChar_toNat (d : ℕ) : (digitChar d).toNat - 48 = d % 10 := by
  have h : ∀ e < 10, (Char.ofNat (48 + e)).toNat - 48 = e := by decide
  exact h (d % 10) (Nat.mod_lt _ (by norm_num))

lemma digitChar_ne_dash (d : ℕ) : digitChar d ≠ '-' := by
  have h : ∀ e < 10, Char.ofNat (48 + e) ≠ '-' := by decide
  exact h (d % 10) (Nat.mod_lt _ (by norm_num))

lemma digitChar_ne_colon (d : ℕ) : digitChar d ≠ ':' := by
  have h : ∀ e < 10, Char.ofNat (48 + e) ≠ ':' := by decide
  exact h (d % 10) (Nat.mod_lt _ (by norm_num))

lemma pyIsSpace_digitChar (d : ℕ) : pyIsSpace (digitChar d) = false := by
  have h : ∀ e < 10, pyIsSpace (Char.ofNat (48 + e)) = false := by decide
  exact h (d % 10) (Nat.mod_lt _ (by norm_num))

/-! ## Matcher stepping facts -/

lemma readDigit_digitChar (d : ℕ) (rest : PyStr) :
    readDigit (digitChar d :: rest) = some (d % 10, rest) := by
  simp [readDigit, digitChar_isDigit d, digitChar_toNat d]

lemma readDigit_colon (rest : PyStr) : readDigit (':' :: rest) = none := by
  simp [readDigit]

lemma readDigit_nil : readDigit [] = none := rfl

lemma fmt02_eq {n : ℕ} (hn : n ≤ 99) : fmt02 n = [digitChar (n / 10), digitChar (n % 10)] := by
  simp [fmt02, hn]

lemma fmt03_eq {n : ℕ} (hn : n ≤ 999) :
    fmt03 n = [digitChar (n / 100), digitChar (n / 10 % 10), digitChar (n % 10)] := by
  simp [fmt03, hn]

lemma readSign_digit (d : ℕ) (rest : PyStr) :
    readSign (digitChar d :: rest) = (false, digitChar d :: rest) := by
  simp [readSign, digitChar_ne_dash d]

lemma readSign_dash (rest : PyStr) : readSign ('-' :: rest) = (true, rest) := by
  simp [readSign]

lemma expectColon_cons (cs : PyStr) : expectColon (':' :: cs) = some cs := by
  simp [expectColon]

lemma expectColon_digit (d : ℕ) (rest : PyStr) : expectColon (digitChar d :: rest) = none := by
  simp [expectColon, digitChar_ne_colon d]

lemma expectColon_nil : expectColon [] = none := rfl

/-! ## Matching the rendered encodings -/

lemma matchHHMMSSMS_render (neg : Bool) (h m s ms : ℕ)
    (hh : h ≤ 99) (hm : m ≤ 99) (hs : s ≤ 99) (hms : ms ≤ 999) :
    matchHHMMSSMS (renderHHMMSSMS neg h m s ms) = some (neg, h, m, s, ms) := by
  rw [renderHHMMSSMS, fmt02_eq hh, fmt02_eq hm, fmt02_eq hs, fmt03_eq hms]
  cases neg <;>
    simp [matchHHMMSSMS, readSign_digit, readSign_dash, read2, read3, readDigit_digitChar,
      expectColon_cons] <;>
    omega

lemma matchHHMMSSMS_renderMMSSMS (neg : Bool) (m s ms : ℕ)
    (hm : m ≤ 99) (hs : s ≤ 99) (hms : ms ≤ 999) :
    matchHHMMSSMS (renderMMSSMS neg m s ms) = none := by
  rw [renderMMSSMS, fmt02_eq hm, fmt02_eq hs, fmt03_eq hms]
  cases neg <;>
    simp [matchHHMMSSMS, readSign_digit, readSign_dash, read2, read3, readDigit_digitChar,
      expectColon_cons, expectColon_digit]

lemma matchHHMMSSMS_renderHHMMSS (neg : Bool) (h m s : ℕ)
    (hh : h ≤ 99) (hm : m ≤ 99) (hs : s ≤ 99) :
    matchHHMMSSMS (renderHHMMSS neg h m s) = none := by
  rw [renderHHMMSS, fmt02_eq hh, fmt02_eq hm, fmt02_eq hs]
  cases neg <;>
    simp [matchHHMMSSMS, readSign_digit, readSign_dash, read2, read3, readDigit_digitChar,
      expectColon_cons, expectColon_digit, expectColon_nil]

lemma matchMMSSMS_render (neg : Bool) (m s ms : ℕ)
    (hm : m ≤ 99) (hs : s ≤ 99) (hms : ms ≤ 999) :
    matchMMSSMS (renderMMSSMS neg m s ms) = some (neg, m, s, ms) := by
  rw [renderMMSSMS, fmt02_eq hm, fmt02_eq hs, fmt03_eq hms]
  cases neg <;>
    simp [matchMMSSMS, readSign_digit, readSign_dash, read2, read3, readDigit_digitChar,
      expectColon_cons] <;>
    omega

lemma matchMMSSMS_renderHHMMSS (neg : Bool) (h m s : ℕ)
    (hh : h ≤ 99) (hm : m ≤ 99) (hs : s ≤ 99) :
    matchMMSSMS (renderHHMMSS neg h m s) = none := by
  rw [renderHHMMSS, fmt02_eq hh, fmt02_eq hm, fmt02_eq hs]
  cases neg <;>
    simp [matchMMSSMS, readSign_digit, readSign_dash, read2, read3, readDigit_digitChar,
      expectColon_cons, readDigit_nil]

lemma matchHHMMSS_render (neg : Bool) (h m s : ℕ)
    (hh : h ≤ 99) (hm : m ≤ 99) (hs : s ≤ 99) :
    matchHHMMSS (renderHHMMSS neg h m s) = some (neg, h, m, s) := by
  rw [renderHHMMSS, fmt02_eq hh, fmt02_eq hm, fmt02_eq hs]
  cases neg <;>
    simp [matchHHMMSS, readSign_digit, readSign_dash, read2, read3, readDigit_digitChar,
      expectColon_cons] <;>
    omega

/-! ## `strip` / `lower` behaviour on the rendered encodings -/

lemma dropWhile_eq_self_of_forall {p : Char → Bool} {cs : PyStr}
    (h : ∀ c ∈ cs, p c = false) : cs.dropWhile p = cs := by
  cases cs with
  | nil => rfl
  | cons a l => simp [List.dropWhile_cons, h a (List.mem_cons_self a l)]

lemma pyStrip_eq_self {cs : PyStr} (h : ∀ c ∈ cs, pyIsSpace c = false) : pyStrip cs = cs := by
  unfold pyStrip
  rw [dropWhile_eq_self_of_forall h]
  rw [dropWhile_eq_self_of_forall (fun c hc => h c (List.mem_reverse.mp hc))]
  exact List.reverse_reverse cs

lemma noSpace_fmt02 {n : ℕ} (hn : n ≤ 99) : ∀ c ∈ fmt02 n, pyIsSpace c = false := by
  rw [fmt02_eq hn]
  intro c hc
  simp at hc
  rcases hc with rfl | rfl <;> exact pyIsSpace_digitChar _

lemma noSpace_fmt03 {n : ℕ} (hn : n ≤ 999) : ∀ c ∈ fmt03 n, pyIsSpace c = false := by
  rw [fmt03_eq hn]
  intro c hc
  simp at hc
  rcases hc with rfl | rfl | rfl <;> exact pyIsSpace_digitChar _

lemma noSpace_sign (neg : Bool) : ∀ c ∈ (if neg then ['-'] else []), pyIsSpace c = false := by
  cases neg <;> decide

lemma noSpace_render_hhmmssms {neg : Bool} {h m s ms : ℕ}
    (hh : h ≤ 99) (hm : m ≤ 99) (hs : s ≤ 99) (hms : ms ≤ 999) :
    ∀ c ∈ renderHHMMSSMS neg h m s ms, pyIsSpace c = false := by
  rw [renderHHMMSSMS]
  refine List.forall_mem_append.mpr ⟨noSpace_sign neg, ?_⟩
  refine List.forall_mem_append.mpr ⟨noSpace_fmt02 hh, ?_⟩
  refine List.forall_mem_cons.mpr ⟨by decide, ?_⟩
  refine List.forall_mem_append.mpr ⟨noSpace_fmt02 hm, ?_⟩
  refine List.forall_mem_cons.mpr ⟨by decide, ?_⟩
  refine List.forall_mem_append.mpr ⟨noSpace_fmt02 hs, ?_⟩
  exact List.forall_mem_cons.mpr ⟨by decide, noSpace_fmt03 hms⟩

lemma noSpace_render_mmssms {neg : Bool} {m s ms : ℕ}
    (hm : m ≤ 99) (hs : s ≤ 99) (hms : ms ≤ 999) :
    ∀ c ∈ renderMMSSMS neg m s ms, pyIsSpace c = false := by
  rw [renderMMSSMS]
  refine List.forall_mem_append.mpr ⟨noSpace_sign neg, ?_⟩
  refine List.forall_mem_append.mpr ⟨noSpace_fmt02 hm, ?_⟩
  refine List.forall_mem_cons.mpr ⟨by decide, ?_⟩
  refine List.forall_mem_append.mpr ⟨noSpace_fmt02 hs, ?_⟩
  exact List.forall_mem_cons.mpr ⟨by decide, noSpace_fmt03 hms⟩

lemma noSpace_render_hhmmss {neg : Bool} {h m s : ℕ}
    (hh : h ≤ 99) (hm : m ≤ 99) (hs : s ≤ 99) :
    ∀ c ∈ renderHHMMSS neg h m s, pyIsSpace c = false := by
  rw [renderHHMMSS]
  refine List.forall_mem_append.mpr ⟨noSpace_sign neg, ?_⟩
  refine List.forall_mem_append.mpr ⟨noSpace_fmt02 hh, ?_⟩
  refine List.forall_mem_cons.mpr ⟨by decide, ?_⟩
  refine List.forall_mem_append.mpr ⟨noSpace_fmt02 hm, ?_⟩
  exact List.forall_mem_cons.mpr ⟨by decide, noSpace_fmt02 hs⟩

lemma length_render_hhmmssms {neg : Bool} {h m s ms : ℕ}
    (hh : h ≤ 99) (hm : m ≤ 99) (hs : s ≤ 99) (hms : ms ≤ 999) :
    12 ≤ (renderHHMMSSMS neg h m s ms).length := by
  rw [renderHHMMSSMS, fmt02_eq hh, fmt02_eq hm, fmt02_eq hs, fmt03_eq hms]
  cases neg <;> simp

lemma length_render_mmssms {neg : Bool} {m s ms : ℕ}
    (hm : m ≤ 99) (hs : s ≤ 99) (hms : ms ≤ 999) :
    9 ≤ (renderMMSSMS neg m s ms).length := by
  rw [renderMMSSMS, fmt02_eq hm, fmt02_eq hs, fmt03_eq hms]
  cases neg <;> simp

lemma length_render_hhmmss {neg : Bool} {h m s : ℕ}
    (hh : h ≤ 99) (hm : m ≤ 99) (hs : s ≤ 99) :
    8 ≤ (renderHHMMSS neg h m s).length := by
  rw [renderHHMMSS, fmt02_eq hh, fmt02_eq hm, fmt02_eq hs]
  cases neg <;> simp

lemma pyLower_ne_of_short {cs t : PyStr} (h : t.length < cs.length) : pyLower cs ≠ t :=
  fun he => by
    have hl : (pyLower cs).length = cs.length := List.length_map _ _
    rw [he] at hl
    omega

/-! ## Decoding rendered encodings -/

lemma parse_render_hhmmssms (neg : Bool) (h m s ms : ℕ)
    (hh : h ≤ 99) (hm : m ≤ 99) (hs : s ≤ 99) (hms : ms ≤ 999) :
    parse_custom_format_to_timedelta (some (renderHHMMSSMS neg h m s ms)) =
      some (tdVal neg (h * 3600000 + m * 60000 + s * 1000 + ms)) := by
  have hlen : 12 ≤ (renderHHMMSSMS neg h m s ms).length := length_render_hhmmssms hh hm hs hms
  have hnil : ¬renderHHMMSSMS neg h m s ms = [] := by
    intro he
    rw [he] at hlen
    simp at hlen
  have hstrip : pyStrip (renderHHMMSSMS neg h m s ms) = renderHHMMSSMS neg h m s ms :=
    pyStrip_eq_self (noSpace_render_hhmmssms hh hm hs hms)
  have hnan : ¬(pyLower (renderHHMMSSMS neg h m s ms) = ['n', 'a', 'n'] ∨
      pyLower (renderHHMMSSMS neg h m s ms) = ['n', 'a', 't']) :=
    not_or.mpr ⟨pyLower_ne_of_short (by simp; omega), pyLower_ne_of_short (by simp; omega)⟩
  simp only [parse_custom_format_to_timedelta, hstrip]
  rw [if_neg hnil, if_neg hnan, matchHHMMSSMS_render neg h m s ms hh hm hs hms]

lemma parse_render_mmssms (neg : Bool) (m s ms : ℕ)
    (hm : m ≤ 99) (hs : s ≤ 99) (hms : ms ≤ 999) :
    parse_custom_format_to_timedelta (some (renderMMSSMS neg m s ms)) =
      some (tdVal neg (m * 60000 + s * 1000 + ms)) := by
  have hlen : 9 ≤ (renderMMSSMS neg m s ms).length := length_render_mmssms hm hs hms
  have hnil : ¬renderMMSSMS neg m s ms = [] := by
    intro he
    rw [he] at hlen
    simp at hlen
  have hstrip : pyStrip (renderMMSSMS neg m s ms) = renderMMSSMS neg m s ms :=
    pyStrip_eq_self (noSpace_render_mmssms hm hs hms)
  have hnan : ¬(pyLower (renderMMSSMS neg m s ms) = ['n', 'a', 'n'] ∨
      pyLower (renderMMSSMS neg m s ms) = ['n', 'a', 't']) :=
    not_or.mpr ⟨pyLower_ne_of_short (by simp; omega), pyLower_ne_of_short (by simp; omega)⟩
  simp only [parse_custom_format_to_timedelta, hstrip]
  rw [if_neg hnil, if_neg hnan, matchHHMMSSMS_renderMMSSMS neg m s ms hm hs hms,
    matchMMSSMS_render neg m s ms hm hs hms]

lemma parse_render_hhmmss (neg : Bool) (h m s : ℕ)
    (hh : h ≤ 99) (hm : m ≤ 99) (hs : s ≤ 99) :
    parse_custom_format_to_timedelta (some (renderHHMMSS neg h m s)) =
      some (tdVal neg ((h * 3600 + m * 60 + s) * 1000)) := by
  have hlen : 8 ≤ (renderHHMMSS neg h m s).length := length_render_hhmmss hh hm hs
  have hnil : ¬renderHHMMSS neg h m s = [] := by
    intro he
    rw [he] at hlen
    simp at hlen
  have hstrip : pyStrip (renderHHMMSS neg h m s) = renderHHMMSS neg h m s :=
    pyStrip_eq_self (noSpace_render_hhmmss hh hm hs)
  have hnan : ¬(pyLower (renderHHMMSS neg h m s) = ['n', 'a', 'n'] ∨
      pyLower (renderHHMMSS neg h m s) = ['n', 'a', 't']) :=
    not_or.mpr ⟨pyLower_ne_of_short (by simp; omega), pyLower_ne_of_short (by simp; omega)⟩
  simp only [parse_custom_format_to_timedelta, hstrip]
  rw [if_neg hnil, if_neg hnan, matchHHMMSSMS_renderHHMMSS neg h m s hh hm hs,
    matchMMSSMS_renderHHMMSS neg h m s hh hm hs, matchHHMMSS_render neg h m s hh hm hs]

/-! ## Evaluating the encoders on exact inputs -/

lemma abs_div_thousand (k : ℤ) : pyAbs ((k : ℚ)/1000) * 1000 = ((k.natAbs : ℤ) : ℚ) := by
  rw [pyAbs_eq_abs, abs_div, abs_of_pos (show (0:ℚ) < 1000 by norm_num),
    div_mul_cancel₀ _ (show (1000:ℚ) ≠ 0 by norm_num), ← Int.cast_abs, Int.abs_eq_natAbs]

lemma decide_div_neg (k : ℤ) : decide ((k : ℚ)/1000 < 0) = decide (k < 0) := by
  simp only [decide_eq_decide]
  rw [div_lt_iff₀ (show (0:ℚ) < 1000 by norm_num), zero_mul, Int.cast_lt_zero]

lemma encode_mmssms_int (k : ℤ) (hov : ((k.natAbs : ℤ) : ℚ) < floatOverflowThreshold) :
    format_seconds_to_mmssms (.vNum ((k : ℚ)/1000)) =
      some (renderMMSSMS (decide (k < 0)) (k.natAbs / 60000) (k.natAbs % 60000 / 1000)
        (k.natAbs % 60000 % 1000)) := by
  simp only [format_seconds_to_mmssms, abs_div_thousand]
  rw [if_neg (not_le.mpr hov)]
  simp only [pyRound_intCast, Int.toNat_natCast, decide_div_neg]

lemma encode_hhmmssms_int (k : ℤ) (hov : ((k.natAbs : ℤ) : ℚ) < floatOverflowThreshold) :
    format_seconds_to_hhmmssms (.vNum ((k : ℚ)/1000)) =
      some (renderHHMMSSMS (decide (k < 0)) (k.natAbs / 3600000) (k.natAbs % 3600000 / 60000)
        (k.natAbs % 3600000 % 60000 / 1000) (k.natAbs % 3600000 % 60000 % 1000)) := by
  simp only [format_seconds_to_hhmmssms, abs_div_thousand]
  rw [if_neg (not_le.mpr hov)]
  simp only [pyRound_intCast, Int.toNat_natCast, decide_div_neg]

lemma encode_mmssms_nonneg (q : ℚ) (hq : 0 ≤ q) (hov : q * 1000 < floatOverflowThreshold) :
    format_seconds_to_mmssms (.vNum q) =
      some (renderMMSSMS false ((pyRound (q * 1000)).toNat / 60000)
        ((pyRound (q * 1000)).toNat % 60000 / 1000) ((pyRound (q * 1000)).toNat % 60000 % 1000)) := by
  have h1 : pyAbs q = q := by
    unfold pyAbs
    rw [if_neg (not_lt.mpr hq)]
  have h2 : decide (q < 0) = false := decide_eq_false (not_lt.mpr hq)
  simp only [format_seconds_to_mmssms, h1, h2]
  rw [if_neg (not_le.mpr hov)]

lemma tdVal_decide_natAbs (k : ℤ) : tdVal (decide (k < 0)) k.natAbs = k := by
  unfold tdVal
  by_cases hneg : k < 0
  · rw [if_pos (decide_eq_true hneg)]
    omega
  · rw [if_neg (by simpa using hneg)]
    omega

/-- C1: round-trip law.  For every duration of `k` whole milliseconds with
`|k| ≤ 24` hours, decoding the HHMMSSMS encoding of `k/1000` seconds with
`parse_custom_format_to_timedelta` returns exactly `k` milliseconds; for
`|k| <` 100 minutes, the same holds for the MMSSMS encoding. -/
theorem C1_round_trip (k : ℤ) :
    (|k| ≤ 86400000 →
      parse_custom_format_to_timedelta
        (format_seconds_to_hhmmssms (.vNum ((k : ℚ)/1000))) = some k) ∧
    (|k| < 6000000 →
      parse_custom_format_to_timedelta
        (format_seconds_to_mmssms (.vNum ((k : ℚ)/1000))) = some k) := by
  constructor
  · intro hk
    have hk' : k.natAbs ≤ 86400000 := by
      rw [Int.abs_eq_natAbs] at hk
      exact_mod_cast hk
    have hov : ((k.natAbs : ℤ) : ℚ) < floatOverflowThreshold := by
      have hle : ((k.natAbs : ℤ) : ℚ) ≤ 86400000 := by exact_mod_cast hk'
      exact lt_of_le_of_lt hle (by norm_num [floatOverflowThreshold])
    rw [encode_hhmmssms_int k hov,
      parse_render_hhmmssms _ _ _ _ _ (by omega) (by omega) (by omega) (by omega)]
    have hsum : k.natAbs / 3600000 * 3600000 + k.natAbs % 3600000 / 60000 * 60000 +
        k.natAbs % 3600000 % 60000 / 1000 * 1000 + k.natAbs % 3600000 % 60000 % 1000 =
        k.natAbs := by omega
    rw [hsum, tdVal_decide_natAbs]
  · intro hk
    have hk' : k.natAbs < 6000000 := by
      rw [Int.abs_eq_natAbs] at hk
      exact_mod_cast hk
    have hov : ((k.natAbs : ℤ) : ℚ) < floatOverflowThreshold := by
      have hle : ((k.natAbs : ℤ) : ℚ) ≤ 6000000 := by exact_mod_cast hk'.le
      exact lt_of_le_of_lt hle (by norm_num [floatOverflowThreshold])
    rw [encode_mmssms_int k hov,
      parse_render_mmssms _ _ _ _ (by omega) (by omega) (by omega)]
    have hsum : k.natAbs / 60000 * 60000 + k.natAbs % 60000 / 1000 * 1000 +
        k.natAbs % 60000 % 1000 = k.natAbs := by omega
    rw [hsum, tdVal_decide_natAbs]

/-- Witness for C1 at 3690.123 s (HHMMSSMS) and 89.567 s (MMSSMS). -/
theorem C1_round_trip_witness :
    (|(3690123 : ℤ)| ≤ 86400000 ∧
      parse_custom_format_to_timedelta
        (format_seconds_to_hhmmssms (.vNum (((3690123 : ℤ) : ℚ)/1000))) = some 3690123) ∧
    (|(89567 : ℤ)| < 6000000 ∧
      parse_custom_format_to_timedelta
        (format_seconds_to_mmssms (.vNum (((89567 : ℤ) : ℚ)/1000))) = some 89567) := by
  have h1 : |(3690123 : ℤ)| ≤ 86400000 := by decide
  have h2 : |(89567 : ℤ)| < 6000000 := by decide
  exact ⟨⟨h1, (C1_round_trip 3690123).1 h1⟩, ⟨h2, (C1_round_trip 89567).2 h2⟩⟩

/-- C8: sign preservation.  Encoding -5.25 s with the MMSSMS encoder yields
exactly "-00:05:250"; decoding "-00:05:250" yields exactly -5250 ms = -5.25 s;
and in general a negative duration is encoded as a leading '-' followed by
the encoding of its absolute value. -/
theorem C8_sign_preservation (q : ℚ) (hq : q < 0) :
    format_seconds_to_mmssms (.vNum (-(21/4 : ℚ))) = some "-00:05:250".data ∧
    parse_custom_format_to_timedelta (some "-00:05:250".data) = some (-5250) ∧
    format_seconds_to_mmssms (.vNum q) =
      (format_seconds_to_mmssms (.vNum (-q))).map (fun cs => '-' :: cs) := by
  refine ⟨?_, by decide, ?_⟩
  · have he : -(21/4 : ℚ) = ((-5250 : ℤ) : ℚ)/1000 := by norm_num
    have hov : (((-5250 : ℤ).natAbs : ℤ) : ℚ) < floatOverflowThreshold := by
      rw [show (-5250 : ℤ).natAbs = 5250 from rfl]
      norm_num [floatOverflowThreshold]
    rw [he, encode_mmssms_int _ hov]
    decide
  · have h1 : pyAbs q = pyAbs (-q) := by
      unfold pyAbs
      rw [if_pos hq, if_neg (by linarith)]
    have h2 : decide (q < 0) = true := decide_eq_true hq
    have h3 : decide (-q < 0) = false := decide_eq_false (by linarith)
    simp only [format_seconds_to_mmssms, h1, h2, h3]
    by_cases hov : floatOverflowThreshold ≤ pyAbs (-q) * 1000
    · rw [if_pos hov, if_pos hov]
      rfl
    · rw [if_neg hov, if_neg hov]
      simp [renderMMSSMS]

/-- Witness for C8 at -1 s. -/
theorem C8_sign_preservation_witness :
    ((-1 : ℚ) < 0) ∧
    format_seconds_to_mmssms (.vNum (-1 : ℚ)) =
      (format_seconds_to_mmssms (.vNum (-(-1 : ℚ)))).map (fun cs => '-' :: cs) :=
  ⟨neg_lt_zero.mpr zero_lt_one,
    (C8_sign_preservation (-1) (neg_lt_zero.mpr zero_lt_one)).2.2⟩

/-- The rounding policy claimed by the spec, stated from its words for
comparison with the code: round half away from zero. -/
def spec_round_half_away (q : ℚ) : ℤ := if q < 0 then -⌊-q + 1/2⌋ else ⌊q + 1/2⌋

/-- C2 counterexample: at 0.0625 s (an exact double whose product with 1000
is the exact double 62.5) the encoder emits "00:00:062" — Python's `round`
breaks the 62.5 tie to the even value 62 — while the claimed
round-half-away-from-zero policy would make 63 ms, i.e. "00:00:063". -/
theorem C2_counterexample :
    format_seconds_to_mmssms (.vNum (1/16 : ℚ)) = some "00:00:062".data ∧
    spec_round_half_away ((1/16 : ℚ) * 1000) = 63 ∧
    "00:00:062".data ≠ "00:00:063".data := by
  refine ⟨?_, ?_, by decide⟩
  · rw [encode_mmssms_nonneg (1/16) (by norm_num) (by norm_num [floatOverflowThreshold])]
    have hr : pyRound ((1/16 : ℚ) * 1000) = 62 := by norm_num [pyRound, ratFloor_eq]
    rw [hr]
    decide
  · have : (1/16 : ℚ) * 1000 = 125/2 := by norm_num
    rw [this]
    rw [spec_round_half_away, if_neg (by norm_num)]
    norm_num

/-- C2 (amended): for every finite numeric seconds value, of either sign,
whose absolute product with 1000 stays below the double overflow threshold,
*both* millisecond encoders (MMSSMS and HHMMSSMS) first convert the
sign-split `abs(seconds) * 1000` to an integer with Python's `round` —
banker's rounding, sending exact halves to the *even* neighbour, not away
from zero — and then decompose that integer using only integer
floor-division and modulo; in particular 59.9995 s encodes to "01:00:000"
(59999.5 ties to the even 60000), never "00:59:1000". -/
theorem C2_rounding_policy (n : ℤ) (q : ℚ) (hq : pyAbs q * 1000 < floatOverflowThreshold) :
    pyRound (((n : ℤ) : ℚ) + 1/2) = (if 2 ∣ n then n else n + 1) ∧
    format_seconds_to_mmssms (.vNum (599995/10000 : ℚ)) = some "01:00:000".data ∧
    format_seconds_to_mmssms (.vNum q) =
      some (renderMMSSMS (decide (q < 0)) ((pyRound (pyAbs q * 1000)).toNat / 60000)
        ((pyRound (pyAbs q * 1000)).toNat % 60000 / 1000)
        ((pyRound (pyAbs q * 1000)).toNat % 60000 % 1000)) ∧
    format_seconds_to_hhmmssms (.vNum q) =
      some (renderHHMMSSMS (decide (q < 0)) ((pyRound (pyAbs q * 1000)).toNat / 3600000)
        ((pyRound (pyAbs q * 1000)).toNat % 3600000 / 60000)
        ((pyRound (pyAbs q * 1000)).toNat % 3600000 % 60000 / 1000)
        ((pyRound (pyAbs q * 1000)).toNat % 3600000 % 60000 % 1000)) := by
  refine ⟨pyRound_add_half n, ?_, ?_, ?_⟩
  · rw [encode_mmssms_nonneg _ (by norm_num) (by norm_num [floatOverflowThreshold])]
    have hr : pyRound ((599995/10000 : ℚ) * 1000) = 60000 := by norm_num [pyRound, ratFloor_eq]
    rw [hr]
    decide
  · simp only [format_seconds_to_mmssms]
    rw [if_neg (not_le.mpr hq)]
  · simp only [format_seconds_to_hhmmssms]
    rw [if_neg (not_le.mpr hq)]

lemma pyAbs_zero_overflow_bound : pyAbs 0 * 1000 < floatOverflowThreshold := by
  norm_num [pyAbs, floatOverflowThreshold]

/-- Witness for C2 at the tie 4 + 1/2 and at 0 s. -/
theorem C2_rounding_policy_witness :
    pyAbs 0 * 1000 < floatOverflowThreshold ∧ pyRound (((4 : ℤ) : ℚ) + 1/2) = 4 := by
  refine ⟨pyAbs_zero_overflow_bound, ?_⟩
  rw [(C2_rounding_policy 4 0 pyAbs_zero_overflow_bound).1, if_pos ⟨2, rfl⟩]

/-- C3 counterexample: the MMSSMS encoder applied to the non-numeric,
non-missing value "abc" returns the string "abc" itself — `str(value)`,
logged "returning as is" — not the missing marker, refuting the claim that
every unparseable input yields the missing marker. -/
theorem C3_counterexample :
    format_seconds_to_mmssms (.vStr "abc".data) = some "abc".data ∧
    format_seconds_to_hhmmss (.vStr "abc".data) = some "abc".data ∧
    format_seconds_to_hhmmssms (.vStr "abc".data) = some "abc".data ∧
    some "abc".data ≠ (none : Option PyStr) :=
  ⟨rfl, rfl, rfl, by decide⟩

/-- C3 (amended): each of the three duration encoders returns the missing
marker on a missing (NaN) input; a non-missing non-numeric input (e.g. an
arbitrary string) is returned as its `str()` form unchanged (with a warning
logged), not as the missing marker; and a numeric input that reaches the
`except` path — an infinite float, or a finite value whose product with
1000 overflows the double range — also returns the missing marker.  In no
case does an encoder raise to the caller. -/
theorem C3_missing_and_passthrough :
    (format_seconds_to_mmssms .vNaN = none ∧ format_seconds_to_hhmmss .vNaN = none ∧
      format_seconds_to_hhmmssms .vNaN = none) ∧
    (∀ s : PyStr, format_seconds_to_mmssms (.vStr s) = some s ∧
      format_seconds_to_hhmmss (.vStr s) = some s ∧
      format_seconds_to_hhmmssms (.vStr s) = some s) ∧
    (∀ b : Bool, format_seconds_to_mmssms (.vInf b) = none ∧
      format_seconds_to_hhmmss (.vInf b) = none ∧
      format_seconds_to_hhmmssms (.vInf b) = none) ∧
    (∀ q : ℚ, floatOverflowThreshold ≤ pyAbs q * 1000 →
      format_seconds_to_mmssms (.vNum q) = none ∧
      format_seconds_to_hhmmssms (.vNum q) = none) := by
  refine ⟨⟨rfl, rfl, rfl⟩, fun _ => ⟨rfl, rfl, rfl⟩, fun _ => ⟨rfl, rfl, rfl⟩,
    fun q hov => ⟨?_, ?_⟩⟩
  · simp only [format_seconds_to_mmssms]
    rw [if_pos hov]
  · simp only [format_seconds_to_hhmmssms]
    rw [if_pos hov]

lemma pow1030_overflow_bound : floatOverflowThreshold ≤ pyAbs (2 ^ 1030 : ℚ) * 1000 := by
  norm_num [pyAbs, floatOverflowThreshold]

/-- Witness for C3's overflow clause at 2^1030 s. -/
theorem C3_missing_and_passthrough_witness :
    floatOverflowThreshold ≤ pyAbs (2 ^ 1030 : ℚ) * 1000 ∧
    format_seconds_to_mmssms (.vNum (2 ^ 1030 : ℚ)) = none :=
  ⟨pow1030_overflow_bound,
    (C3_missing_and_passthrough.2.2.2 _ pow1030_overflow_bound).1⟩

/-- C4 counterexample: "1:02:03:456" is a string of four colon-separated
digit groups, and "1:02:345" has three groups with a 3-digit final group,
yet both decode to missing, because the regexes demand *exact* widths
(two digits per leading group, three for a millisecond group). -/
theorem C4_counterexample :
    parse_custom_format_to_timedelta (some "1:02:03:456".data) = none ∧
    parse_custom_format_to_timedelta (some "1:02:345".data) = none := by
  exact ⟨by decide, by decide⟩

/-- C4 (amended): `parse_custom_format_to_timedelta` tries the variants in
the fixed order HHMMSSMS, MMSSMS, HHMMSS using whole-string matching with
exact digit-group widths: a `[-]DD:DD:DD:DDD` string decodes as HHMMSSMS, a
`[-]DD:DD:DDD` string as MMSSMS, a `[-]DD:DD:DD` string as HHMMSS (so the
ambiguous "01:02:003" deterministically resolves to MMSSMS = 62003 ms), and
any string matching none of the three exact shapes yields missing (the
original string appearing only in the warning log). -/
theorem C4_variant_detection (neg : Bool) (h m s ms : ℕ) (cs : PyStr)
    (hh : h ≤ 99) (hm : m ≤ 99) (hs : s ≤ 99) (hms : ms ≤ 999)
    (hf1 : matchHHMMSSMS (pyStrip cs) = none) (hf2 : matchMMSSMS (pyStrip cs) = none)
    (hf3 : matchHHMMSS (pyStrip cs) = none) :
    parse_custom_format_to_timedelta (some (renderHHMMSSMS neg h m s ms)) =
      some (tdVal neg (h * 3600000 + m * 60000 + s * 1000 + ms)) ∧
    parse_custom_format_to_timedelta (some (renderMMSSMS neg m s ms)) =
      some (tdVal neg (m * 60000 + s * 1000 + ms)) ∧
    parse_custom_format_to_timedelta (some (renderHHMMSS neg h m s)) =
      some (tdVal neg ((h * 3600 + m * 60 + s) * 1000)) ∧
    parse_custom_format_to_timedelta (some "01:02:003".data) = some 62003 ∧
    parse_custom_format_to_timedelta (some cs) = none := by
  refine ⟨parse_render_hhmmssms neg h m s ms hh hm hs hms,
    parse_render_mmssms neg m s ms hm hs hms,
    parse_render_hhmmss neg h m s hh hm hs, by decide, ?_⟩
  by_cases hnil : cs = []
  · subst hnil
    decide
  · simp only [parse_custom_format_to_timedelta]
    rw [if_neg hnil]
    by_cases hnan : pyLower (pyStrip cs) = ['n', 'a', 'n'] ∨ pyLower (pyStrip cs) = ['n', 'a', 't']
    · rw [if_pos hnan]
    · rw [if_neg hnan]
      simp only [hf1, hf2, hf3]

/-- Witness for C4 with the MMSSMS shape 01:02:003 and the non-matching
string "xyz". -/
theorem C4_variant_detection_witness :
    parse_custom_format_to_timedelta (some (renderMMSSMS false 1 2 3)) =
      some (tdVal false (1 * 60000 + 2 * 1000 + 3)) ∧
    parse_custom_format_to_timedelta (some "xyz".data) = none := by
  have h := C4_variant_detection false 0 1 2 3 "xyz".data (by decide) (by decide) (by decide)
    (by decide) (by decide) (by decide) (by decide)
  exact ⟨h.2.1, h.2.2.2.2⟩

lemma dropWhile_eq_nil_of_forall {p : Char → Bool} {cs : PyStr}
    (h : ∀ c ∈ cs, p c = true) : cs.dropWhile p = [] := by
  induction cs with
  | nil => rfl
  | cons a l ih =>
    rw [List.dropWhile_cons, if_pos (h a (List.mem_cons_self a l))]
    exact ih fun c hc => h c (List.mem_cons_of_mem a hc)

lemma pyStrip_eq_nil_of_all_space {cs : PyStr} (h : ∀ c ∈ cs, pyIsSpace c = true) :
    pyStrip cs = [] := by
  unfold pyStrip
  rw [dropWhile_eq_nil_of_forall h]
  rfl

/-- C9: missing-token handling.  A missing cell, an empty string, a
whitespace-only string, and any string whose stripped form lowercases to
"nan" or "nat" all decode to the missing value NaT, with no error result. -/
theorem C9_missing_tokens (s : PyStr)
    (hmiss : (∀ c ∈ s, pyIsSpace c = true) ∨ pyLower (pyStrip s) = "nan".data ∨
      pyLower (pyStrip s) = "nat".data) :
    parse_custom_format_to_timedelta none = none ∧
    parse_custom_format_to_timedelta (some s) = none := by
  refine ⟨rfl, ?_⟩
  by_cases hnil : s = []
  · subst hnil
    decide
  · rcases hmiss with hsp | hnan | hnat
    · have hstrip : pyStrip s = [] := pyStrip_eq_nil_of_all_space hsp
      simp only [parse_custom_format_to_timedelta, hstrip]
      rw [if_neg hnil]
      decide
    · simp only [parse_custom_format_to_timedelta]
      rw [if_neg hnil, if_pos (Or.inl hnan)]
    · simp only [parse_custom_format_to_timedelta]
      rw [if_neg hnil, if_pos (Or.inr hnat)]

/-- Witness for C9 on the string " NaT ". -/
theorem C9_missing_tokens_witness :
    pyLower (pyStrip " NaT ".data) = "nat".data ∧
    parse_custom_format_to_timedelta (some " NaT ".data) = none := by
  have h : pyLower (pyStrip " NaT ".data) = "nat".data := by decide
  exact ⟨h, (C9_missing_tokens " NaT ".data (Or.inr (Or.inr h))).2⟩

/-! ## Absolute-time reconstruction in `get_session_data` (f1_dataExtractor.py) -/

/-- Model of an `arrow` timestamp shift `arrow_obj.shift(seconds=offset)`:
the timestamp is the rational count of seconds on the local clock. -/
def arrowShift (t off : ℚ) : ℚ := t + off

/-- Model of `format_arrow_to_hhmmssms`: render the local wall clock of the
instant as `HH:mm:ss:SSS` (sub-millisecond truncated, day wrapped). -/
def format_arrow_to_hhmmssms (t : ℚ) : PyStr :=
  let msd : ℕ := ((t * 1000).floor % 86400000).toNat
  renderHHMMSSMS false (msd / 3600000) (msd % 3600000 / 60000) (msd % 3600000 % 60000 / 1000)
    (msd % 3600000 % 60000 % 1000)

/-- Model of `format_arrow_to_hhmmss`: render the local wall clock of the
instant as `HH:mm:ss` (sub-second truncated, day wrapped). -/
def format_arrow_to_hhmmss (t : ℚ) : PyStr :=
  let sd : ℕ := (t.floor % 86400).toNat
  renderHHMMSS false (sd / 3600) (sd % 3600 / 60) (sd % 3600 % 60)

/-- The per-column absolute-time conversion of `get_session_data`
(f1_dataExtractor.py lines 288–328 for laps, 415–431 for weather): when the
local session start instant is unknown (`None`), the whole column is
assigned `np.nan`; otherwise a missing offset yields `NaN` and a present
offset yields the formatted shifted instant. -/
def convertAbsColumn (fmtF : ℚ → PyStr) (start : Option ℚ) (offsets : List (Option ℚ)) :
    List (Option PyStr) :=
  match start with
  | some t => offsets.map fun o =>
      match o with
      | none => none
      | some off => some (fmtF (arrowShift t off))
  | none => offsets.map fun _ => none

/-- The laps columns converted to absolute local time `HH:MM:SS:MS`
(line 279), and the weather `Time` column (line 415). -/
def absolute_local_time_hhmmssms : List String := ["Time", "PitInTime", "PitOutTime"]

/-- The laps columns converted to absolute local time `HH:MM:SS` (line 280). -/
def absolute_local_time_hhmmss : List String :=
  ["Sector1SessionTime", "Sector2SessionTime", "Sector3SessionTime", "LapStartTime"]

lemma map_const_none {α β : Type} (l : List α) :
    l.map (fun _ => (none : Option β)) = List.replicate l.length none := by
  induction l with
  | nil => rfl
  | cons a tl ih => simp [List.replicate_succ, ih]

/-- C5: unknown-session-start degradation.  With an unknown local session
start instant, both absolute-time conversions (the `HH:MM:SS:MS` one used
for laps Time / PitInTime / PitOutTime and weather Time, and the `HH:MM:SS`
one used for the sector session times and LapStartTime) write the whole
column as the missing marker, one missing cell per input row — never zero
and never a value derived from the UTC timestamp. -/
theorem C5_unknown_session_start (offsets : List (Option ℚ)) :
    convertAbsColumn format_arrow_to_hhmmssms none offsets =
      List.replicate offsets.length none ∧
    convertAbsColumn format_arrow_to_hhmmss none offsets =
      List.replicate offsets.length none := by
  exact ⟨map_const_none offsets, map_const_none offsets⟩

/-! ## Telemetry summary (`get_session_data` step 4) -/

/-- The module-level names defined in f1_dataExtractor.py (imports and
function definitions); `timedelta_to_seconds`, called at line 377, is not
among them, so evaluating it raises `NameError`. -/
def extractor_module_names : List String :=
  ["fastf1", "Laps", "plotting", "utils", "pd", "np", "os", "logging", "timedelta",
   "datetime", "arrow", "re", "CACHE_DIR", "robust_string_or_td_to_seconds",
   "format_seconds_to_mmssms", "format_seconds_to_hhmmss", "format_seconds_to_hhmmssms",
   "format_arrow_to_hhmmssms", "format_arrow_to_hhmmss", "get_session_data", "main"]

/-- One processed lap together with the state of its telemetry lookup, as
observed by the summary loop (f1_dataExtractor.py lines 344–395). -/
structure LapRecord where
  driver : String
  lapNumber : ℕ
  lapTimeMissing : Bool
  lapNumberMissing : Bool
  lapLookupFails : Bool
  telemetryFails : Bool
  telemetryRows : ℕ
  telemetryHasTimeCol : Bool
deriving DecidableEq

/-- A telemetry summary row (identity fields only). -/
structure SummaryRow where
  driver : String
  lapNumber : ℕ
deriving DecidableEq

/-- Evaluation of the `summary` dict (lines 374–391): the value for
`TelemetryLapStartTime_seconds` evaluates `timedelta_to_seconds(...)`
exactly when the telemetry frame has a nonempty `Time` column; looking up
an undefined global name raises `NameError`, which the `except` at line 393
swallows, so no row is appended. -/
def buildSummaryRow (lap : LapRecord) : Option SummaryRow :=
  if lap.telemetryHasTimeCol ∧ 0 < lap.telemetryRows then
    if extractor_module_names.contains "timedelta_to_seconds" then
      some ⟨lap.driver, lap.lapNumber⟩
    else none
  else some ⟨lap.driver, lap.lapNumber⟩

/-- The per-lap body of the summary loop: each `continue` guard and each
caught exception contributes no row. -/
def processLapForTelemetry (lap : LapRecord) : Option SummaryRow :=
  if lap.lapTimeMissing then none
  else if lap.lapNumberMissing then none
  else if lap.lapLookupFails then none
  else if lap.telemetryFails then none
  else if lap.telemetryRows = 0 then none
  else buildSummaryRow lap

/-- The `all_lap_telemetry_summary` list accumulated over all laps. -/
def all_lap_telemetry_summary (laps : List LapRecord) : List SummaryRow :=
  laps.filterMap processLapForTelemetry

/-- Whether `lap_telemetry_summary.csv` is written (line 397: only when the
summary list is nonempty). -/
def writes_lap_telemetry_summary (laps : List LapRecord) : Bool :=
  !(all_lap_telemetry_summary laps).isEmpty

/-- C7: the name `timedelta_to_seconds` is defined nowhere in the module, so
whenever a lap's telemetry frame carries a `Time` column the summary-row
construction raises `NameError`, the per-lap handler swallows it, the
accumulated summary stays empty, and `lap_telemetry_summary.csv` is never
written. -/
theorem C7_telemetry_summary_never_written (laps : List LapRecord)
    (htime : ∀ lap ∈ laps, lap.telemetryHasTimeCol = true) :
    all_lap_telemetry_summary laps = [] ∧
    writes_lap_telemetry_summary laps = false := by
  have hrow : ∀ lap ∈ laps, processLapForTelemetry lap = none := by
    intro lap hl
    unfold processLapForTelemetry
    split_ifs with h1 h2 h3 h4 h5 <;> try rfl
    unfold buildSummaryRow
    rw [if_pos ⟨htime lap hl, by omega⟩, if_neg (by decide)]
  have hempty : all_lap_telemetry_summary laps = [] := by
    unfold all_lap_telemetry_summary
    exact List.filterMap_eq_nil_iff.mpr hrow
  exact ⟨hempty, by unfold writes_lap_telemetry_summary; rw [hempty]; rfl⟩

/-- Witness for C7 with one fully healthy lap whose telemetry has a Time
column. -/
theorem C7_telemetry_summary_never_written_witness :
    (∀ lap ∈ [(⟨"VER", 1, false, false, false, false, 100, true⟩ : LapRecord)],
      lap.telemetryHasTimeCol = true) ∧
    all_lap_telemetry_summary [(⟨"VER", 1, false, false, false, false, 100, true⟩ : LapRecord)] =
      [] := by
  have h : ∀ lap ∈ [(⟨"VER", 1, false, false, false, false, 100, true⟩ : LapRecord)],
      lap.telemetryHasTimeCol = true := by decide
  exact ⟨h, (C7_telemetry_summary_never_written _ h).1⟩

/-! ## Column routing (`transform_csv_file`, f1_dataTransform.py) -/

/-- A raw CSV table as read by `pd.read_csv(..., dtype=str)`: columns in
order, each cell either a string or missing. -/
abbrev RawDf := List (String × List (Option PyStr))

/-- An output cell after transformation.  The external pandas conversions
(`pd.to_datetime(errors='coerce')` and `pd.to_numeric` followed by
`pd.to_timedelta(unit='s')`) are represented symbolically by a constructor
holding their argument. -/
inductive Cell where
  | raw (s : Option PyStr)
  | td (v : Option ℤ)
  | dt (src : Option PyStr)
  | numtd (src : Option PyStr)
deriving DecidableEq

/-- Routing table `STRING_COLUMNS_TO_TIMEDELTA` (f1_dataTransform.py 69–77). -/
def STRING_COLUMNS_TO_TIMEDELTA : List (String × List String) :=
  [("session_results.csv", ["Time", "Q1", "Q2", "Q3"]),
   ("laps_data.csv",
     ["LapTime", "Sector1Time", "Sector2Time", "Sector3Time",
      "Time", "PitInTime", "PitOutTime",
      "Sector1SessionTime", "Sector2SessionTime", "Sector3SessionTime", "LapStartTime"]),
   ("weather_data.csv", ["Time"])]

/-- Routing table `ISO_STRING_COLUMNS_TO_DATETIME` (lines 80–82). -/
def ISO_STRING_COLUMNS_TO_DATETIME : List (String × List String) :=
  [("event_info.csv", ["EventDate", "SessionStartDateLocalISO", "SessionStartDateUTCISO"])]

/-- Routing table `NUMERIC_SECONDS_COLUMNS_TO_TIMEDELTA` (lines 85–88). -/
def NUMERIC_SECONDS_COLUMNS_TO_TIMEDELTA : List (String × List String) :=
  [("session_results.csv", ["Interval"]),
   ("lap_telemetry_summary.csv", ["TelemetryLapStartTime_seconds"])]

/-- Dictionary access `TBL[file_name]` guarded by `file_name in TBL`
(exact-match key lookup). -/
def lookupCols (tbl : List (String × List String)) (f : String) : List String :=
  match tbl.find? (fun p => decide (p.1 = f)) with
  | some p => p.2
  | none => []

/-- Cell transform of pass 1: `df[col].apply(parse_custom_format_to_timedelta)`. -/
def tdCell : Cell → Cell
  | .raw s => .td (parse_custom_format_to_timedelta s)
  | c => c

/-- Cell transform of pass 2: `pd.to_datetime(df[col], errors='coerce')`. -/
def dtCell : Cell → Cell
  | .raw s => .dt s
  | c => c

/-- Cell transform of pass 3: `pd.to_numeric` then `pd.to_timedelta(unit='s')`. -/
def numtdCell : Cell → Cell
  | .raw s => .numtd s
  | c => c

/-- One transformation pass: `for col in cols: if col in df.columns:
df[col] = df[col].apply(f)`.  An absent column leaves the table unchanged. -/
def applyPass (cols : List String) (f : Cell → Cell) (df : List (String × List Cell)) :
    List (String × List Cell) :=
  cols.foldl (fun acc col =>
    acc.map fun p => if p.1 = col then (p.1, p.2.map f) else p) df

/-- The `transformed_cols_count` of `transform_csv_file`: registered columns
of this file that are present in the table, over the three passes. -/
def countRegistered (fileName : String) (df : RawDf) : ℕ :=
  ((lookupCols STRING_COLUMNS_TO_TIMEDELTA fileName).filter
      (fun c => (df.map Prod.fst).contains c)).length +
  ((lookupCols ISO_STRING_COLUMNS_TO_DATETIME fileName).filter
      (fun c => (df.map Prod.fst).contains c)).length +
  ((lookupCols NUMERIC_SECONDS_COLUMNS_TO_TIMEDELTA fileName).filter
      (fun c => (df.map Prod.fst).contains c)).length

/-- Model of `transform_csv_file` (f1_dataTransform.py lines 91–158): read
the table, run the three registered passes, and write the output only when
`transformed_cols_count > 0` (lines 146–151); `none` means no output file
is written. -/
def transform_csv_file (fileName : String) (df : RawDf) :
    Option (List (String × List Cell)) :=
  let df0 := df.map fun p => (p.1, p.2.map Cell.raw)
  let df1 := applyPass (lookupCols STRING_COLUMNS_TO_TIMEDELTA fileName) tdCell df0
  let df2 := applyPass (lookupCols ISO_STRING_COLUMNS_TO_DATETIME fileName) dtCell df1
  let df3 := applyPass (lookupCols NUMERIC_SECONDS_COLUMNS_TO_TIMEDELTA fileName) numtdCell df2
  if 0 < countRegistered fileName df then some df3 else none

lemma applyPass_cons (c : String) (cols : List String) (f : Cell → Cell)
    (d : List (String × List Cell)) :
    applyPass (c :: cols) f d =
      applyPass cols f (d.map fun p => if p.1 = c then (p.1, p.2.map f) else p) := rfl

lemma map_fst_step (c : String) (f : Cell → Cell) (d : List (String × List Cell)) :
    (d.map fun p => if p.1 = c then (p.1, p.2.map f) else p).map Prod.fst =
      d.map Prod.fst := by
  rw [List.map_map]
  apply List.map_congr_left
  intro p _
  by_cases hc : p.1 = c <;> simp [hc]

lemma applyPass_fst (cols : List String) (f : Cell → Cell)
    (d : List (String × List Cell)) :
    (applyPass cols f d).map Prod.fst = d.map Prod.fst := by
  induction cols generalizing d with
  | nil => rfl
  | cons c cols ih =>
    rw [applyPass_cons, ih, map_fst_step]

/-- C6 counterexample: `laps_data.csv` is a registered file, but an input
holding only the unregistered column "Driver" yields *no* output file
(`transformed_cols_count == 0` skips the save at line 151), refuting "an
input file processed without error always produces an output file". -/
theorem C6_counterexample :
    transform_csv_file "laps_data.csv" [("Driver", [some "VER".data])] = none := by
  decide

/-- C6 (amended): a registered column absent from the file is skipped
silently (the pass leaves the table unchanged there) and the output keeps
exactly the input's column names in order; but the output file is written
iff at least one registered column is present — an input none of whose
columns are registered (or an unregistered file) produces no output file. -/
theorem C6_column_level_semantics (fileName : String) (df : RawDf) :
    ((transform_csv_file fileName df).isSome ↔ 0 < countRegistered fileName df) ∧
    (∀ out, transform_csv_file fileName df = some out →
      out.map Prod.fst = df.map Prod.fst) := by
  constructor
  · unfold transform_csv_file
    by_cases hc : 0 < countRegistered fileName df
    · rw [if_pos hc]
      simpa using hc
    · rw [if_neg hc]
      simpa using hc
  · intro out hout
    unfold transform_csv_file at hout
    by_cases hc : 0 < countRegistered fileName df
    · rw [if_pos hc] at hout
      obtain rfl := (Option.some.inj hout).symm
      rw [applyPass_fst, applyPass_fst, applyPass_fst, List.map_map]
      rfl
    · rw [if_neg hc] at hout
      exact absurd hout (by simp)

/-- Witness for C6: a weather file whose `Time` column is registered and
present is transformed and written. -/
theorem C6_column_level_semantics_witness :
    transform_csv_file "weather_data.csv" [("Time", [(none : Option PyStr)])] =
      some [("Time", [Cell.td none])] ∧
    ([("Time", [Cell.td none])] : List (String × List Cell)).map Prod.fst =
      ([("Time", [(none : Option PyStr)])] : RawDf).map Prod.fst := by
  have h : transform_csv_file "weather_data.csv" [("Time", [(none : Option PyStr)])] =
      some [("Time", [Cell.td none])] := by decide
  exact ⟨h, (C6_column_level_semantics "weather_data.csv" _).2 _ h⟩

/-- The cells of column `c` of a table (leftmost occurrence), if present. -/
def colCells {α : Type} (df : List (String × α)) (c : String) : Option α :=
  (df.find? fun p => decide (p.1 = c)).map Prod.snd

lemma colCells_map_step {c c' : String} (h : c' ≠ c) (f : Cell → Cell)
    (d : List (String × List Cell)) :
    colCells (d.map fun p => if p.1 = c' then (p.1, p.2.map f) else p) c = colCells d c := by
  induction d with
  | nil => rfl
  | cons p tl ih =>
    simp only [List.map_cons]
    unfold colCells
    by_cases hp : p.1 = c'
    · have hne : ¬p.1 = c := fun hhc => h (hp.symm.trans hhc)
      rw [if_pos hp, List.find?_cons_of_neg _ (by simpa using hne),
        List.find?_cons_of_neg _ (by simpa using hne)]
      exact ih
    · rw [if_neg hp]
      by_cases hc : p.1 = c
      · rw [List.find?_cons_of_pos _ (by simp [hc]), List.find?_cons_of_pos _ (by simp [hc])]
      · rw [List.find?_cons_of_neg _ (by simp [hc]), List.find?_cons_of_neg _ (by simp [hc])]
        exact ih

lemma colCells_applyPass {c : String} {cols : List String} (h : c ∉ cols)
    (f : Cell → Cell) (d : List (String × List Cell)) :
    colCells (applyPass cols f d) c = colCells d c := by
  induction cols generalizing d with
  | nil => rfl
  | cons c' cols ih =>
    rw [applyPass_cons, ih fun hmem => h (List.mem_cons_of_mem c' hmem)]
    exact colCells_map_step (fun he => h (by rw [he]; exact List.mem_cons_self c cols)) f d

lemma colCells_map_raw (df : RawDf) (c : String) :
    colCells (df.map fun p => (p.1, p.2.map Cell.raw)) c =
      (colCells df c).map (List.map Cell.raw) := by
  induction df with
  | nil => rfl
  | cons p tl ih =>
    simp only [List.map_cons]
    unfold colCells
    by_cases hc : p.1 = c
    · rw [List.find?_cons_of_pos _ (by simp [hc]), List.find?_cons_of_pos _ (by simp [hc])]
      rfl
    · rw [List.find?_cons_of_neg _ (by simp [hc]), List.find?_cons_of_neg _ (by simp [hc])]
      exact ih

/-- C10: frame condition for unregistered columns.  If the output file is
written, every column of the input whose name is registered for this file
in none of the three routing tables reappears in the output with exactly
the cell values read from the input; routing is by exact-match lookup of
the file name and column name. -/
theorem C10_unregistered_columns_unchanged (fileName c : String) (df : RawDf)
    (out : List (String × List Cell))
    (hw : transform_csv_file fileName df = some out)
    (h1 : c ∉ lookupCols STRING_COLUMNS_TO_TIMEDELTA fileName)
    (h2 : c ∉ lookupCols ISO_STRING_COLUMNS_TO_DATETIME fileName)
    (h3 : c ∉ lookupCols NUMERIC_SECONDS_COLUMNS_TO_TIMEDELTA fileName) :
    colCells out c = (colCells df c).map (List.map Cell.raw) := by
  unfold transform_csv_file at hw
  by_cases hc : 0 < countRegistered fileName df
  · rw [if_pos hc] at hw
    obtain rfl := (Option.some.inj hw).symm
    rw [colCells_applyPass h3, colCells_applyPass h2, colCells_applyPass h1, colCells_map_raw]
  · rw [if_neg hc] at hw
    exact absurd hw (by simp)

/-- Witness for C10: in a transformed weather file the unregistered column
"AirTemp" is carried through unchanged. -/
theorem C10_unregistered_columns_unchanged_witness :
    transform_csv_file "weather_data.csv"
      [("Time", [some "12:00:00:000".data]), ("AirTemp", [some "25.3".data])] =
      some [("Time", [Cell.td (some 43200000)]), ("AirTemp", [Cell.raw (some "25.3".data)])] ∧
    colCells [("Time", [Cell.td (some 43200000)]), ("AirTemp", [Cell.raw (some "25.3".data)])]
      "AirTemp" =
      (colCells ([("Time", [some "12:00:00:000".data]), ("AirTemp", [some "25.3".data])] : RawDf)
        "AirTemp").map (List.map Cell.raw) := by
  have hw : transform_csv_file "weather_data.csv"
      [("Time", [some "12:00:00:000".data]), ("AirTemp", [some "25.3".data])] =
      some [("Time", [Cell.td (some 43200000)]), ("AirTemp", [Cell.raw (some "25.3".data)])] := by
    decide
  exact ⟨hw, C10_unregistered_columns_unchanged "weather_data.csv" "AirTemp" _ _ hw
    (by decide) (by decide) (by decide)⟩
